import Mathlib

/-!
# Verification of the kvz Python client (`kvz_client.py`)

A shallow embedding of the `KVZClient` class.  Frames on the wire are
byte lists (`List Nat`, each entry a byte value `< 256`), a multi-frame
message is a `List (List Nat)`.  The client's I/O is factored into a
pure request-building step (what `send_multipart` is given) and a pure
reply-decoding step (what the code after `recv_multipart` computes from
the received frames); `put` and `get` are the composition, taking the
reply as an explicit argument.  Python exceptions become `Except` errors:
each distinct `raise` site of the source is one constructor of `KVError`,
and `KVError.message` reproduces the message string the source attaches.
-/

/-- A continuation byte of a UTF-8 sequence: `0x80 ≤ b ≤ 0xBF`. -/
def utf8Cont (b : Nat) : Bool := 0x80 ≤ b && b ≤ 0xBF

/-- Fuel-driven worker for `utf8DecodeIgnore`.  Mirrors CPython's UTF-8
decoder with the `ignore` error handler: valid sequences produce their
scalar value, an ill-formed subsequence is skipped (its maximal valid
subpart: the lead byte together with the continuation bytes already
accepted) and decoding resumes at the next byte; a truncated sequence at
the end of input is likewise dropped.  Each step consumes at least one
byte, so fuel equal to the length of the input is enough. -/
def utf8IgnoreAux : Nat → List Nat → List Char
  | 0, _ => []
  | _, [] => []
  | fuel + 1, b :: rest =>
    if b < 0x80 then
      Char.ofNat b :: utf8IgnoreAux fuel rest
    else if b < 0xC2 then
      -- 0x80–0xC1: continuation byte or overlong lead, invalid start
      utf8IgnoreAux fuel rest
    else if b ≤ 0xDF then
      match rest with
      | c1 :: r2 =>
        if utf8Cont c1 then
          Char.ofNat ((b - 0xC0) * 0x40 + (c1 - 0x80)) :: utf8IgnoreAux fuel r2
        else utf8IgnoreAux fuel rest
      | [] => []
    else if b ≤ 0xEF then
      -- three-byte lead; the first continuation range excludes overlong
      -- encodings (lead 0xE0) and surrogates (lead 0xED)
      let lo := if b = 0xE0 then 0xA0 else 0x80
      let hi := if b = 0xED then 0x9F else 0xBF
      match rest with
      | c1 :: r2 =>
        if lo ≤ c1 && c1 ≤ hi then
          match r2 with
          | c2 :: r3 =>
            if utf8Cont c2 then
              Char.ofNat ((b - 0xE0) * 0x1000 + (c1 - 0x80) * 0x40 + (c2 - 0x80)) ::
                utf8IgnoreAux fuel r3
            else utf8IgnoreAux fuel r2
          | [] => []
        else utf8IgnoreAux fuel rest
      | [] => []
    else if b ≤ 0xF4 then
      -- four-byte lead; ranges exclude overlong (0xF0) and > U+10FFFF (0xF4)
      let lo := if b = 0xF0 then 0x90 else 0x80
      let hi := if b = 0xF4 then 0x8F else 0xBF
      match rest with
      | c1 :: r2 =>
        if lo ≤ c1 && c1 ≤ hi then
          match r2 with
          | c2 :: r3 =>
            if utf8Cont c2 then
              match r3 with
              | c3 :: r4 =>
                if utf8Cont c3 then
                  Char.ofNat ((b - 0xF0) * 0x40000 + (c1 - 0x80) * 0x1000 +
                      (c2 - 0x80) * 0x40 + (c3 - 0x80)) :: utf8IgnoreAux fuel r4
                else utf8IgnoreAux fuel r3
              | [] => []
            else utf8IgnoreAux fuel r2
          | [] => []
        else utf8IgnoreAux fuel rest
      | [] => []
    else
      -- 0xF5–0xFF: invalid start byte
      utf8IgnoreAux fuel rest

/-- Python's `bytes.decode("utf-8", errors="ignore")`: total, never
raises; ill-formed byte subsequences are silently dropped. -/
def utf8DecodeIgnore (bs : List Nat) : String :=
  ⟨utf8IgnoreAux bs.length bs⟩

/-- UTF-8 encoding of one Unicode scalar value. -/
def utf8EncodeChar (c : Char) : List Nat :=
  let n := c.toNat
  if n < 0x80 then [n]
  else if n < 0x800 then [0xC0 + n / 0x40, 0x80 + n % 0x40]
  else if n < 0x10000 then
    [0xE0 + n / 0x1000, 0x80 + n / 0x40 % 0x40, 0x80 + n % 0x40]
  else
    [0xF0 + n / 0x40000, 0x80 + n / 0x1000 % 0x40, 0x80 + n / 0x40 % 0x40,
      0x80 + n % 0x40]

/-- Python's `str.encode("utf-8")`. -/
def utf8Encode (s : String) : List Nat :=
  s.data.flatMap utf8EncodeChar

/-- The 8 big-endian base-256 digits of a natural number below `2^64`. -/
def packQNat (t : Nat) : List Nat :=
  [t / 2 ^ 56 % 256, t / 2 ^ 48 % 256, t / 2 ^ 40 % 256, t / 2 ^ 32 % 256,
    t / 2 ^ 24 % 256, t / 2 ^ 16 % 256, t / 2 ^ 8 % 256, t % 256]

/-- Python's `struct.pack(">Q", ts)`: 8 bytes, big-endian, unsigned.
Python ints are unbounded, so the argument is an `Int`; `struct.error`
(here `none`) is raised when the value is outside `[0, 2^64)`. -/
def structPackQ (ts : Int) : Option (List Nat) :=
  if 0 ≤ ts ∧ ts < 2 ^ 64 then some (packQNat ts.toNat) else none

/-- Python's `struct.unpack(">Q", bs)[0]`: requires exactly 8 bytes
(`struct.error`, here `none`, otherwise) and reassembles them
big-endian. -/
def structUnpackQ (bs : List Nat) : Option Nat :=
  match bs with
  | [b0, b1, b2, b3, b4, b5, b6, b7] =>
    some (b0 * 2 ^ 56 + b1 * 2 ^ 48 + b2 * 2 ^ 40 + b3 * 2 ^ 32 + b4 * 2 ^ 24 +
      b5 * 2 ^ 16 + b6 * 2 ^ 8 + b7)
  | _ => none

/-- The ways a `KVZClient` call fails, one constructor per `raise` site
of the source (plus `packError` for `struct.error` escaping from
`struct.pack`/`struct.unpack`).  In Python all five sites raise
`RuntimeError`; they are distinguished by the attached message, which
`KVError.message` reproduces. -/
inductive KVError where
  | emptyReply : KVError
  | putErr : String → KVError
  | getErr : String → KVError
  | malformedOK : KVError
  | unexpectedReply : List (List Nat) → KVError
  | packError : KVError
deriving DecidableEq, Repr

/-- The message string each `raise` site of the source attaches to its
`RuntimeError`.  For `unexpectedReply`, Python interpolates the reply
list with `f"Unexpected reply: {rep}"`; the exact `repr` formatting of
the frame list is immaterial here, so the frames are rendered with
Lean's `Repr`; only the fixed prefix is used in proofs. -/
def KVError.message : KVError → String
  | .emptyReply => "empty reply"
  | .putErr m => "PUT ERR: " ++ m
  | .getErr m => "GET ERR: " ++ m
  | .malformedOK => "malformed OK reply"
  | .unexpectedReply r => "Unexpected reply: " ++ toString (repr r)
  | .packError => "struct.error"

/-- `rep[1].decode("utf-8", errors="ignore") if len(rep) > 1 else ""`,
applied to the tail of the reply (so `m` is `rep[1]`). -/
def serverMsg (rest : List (List Nat)) : String :=
  match rest with
  | m :: _ => utf8DecodeIgnore m
  | [] => ""

/-- The frames `KVZClient.put` passes to `send_multipart`:
`[b"PUT", key.encode("utf-8"), struct.pack(">Q", ts), data]`.  The
timestamp is packed before anything is sent, so an out-of-range `ts`
fails here and no frames are produced. -/
def putRequest (key : String) (ts : Int) (data : List Nat) :
    Except KVError (List (List Nat)) :=
  match structPackQ ts with
  | some tsBytes => .ok [[0x50, 0x55, 0x54], utf8Encode key, tsBytes, data]
  | none => .error .packError

/-- The reply-processing tail of `KVZClient.put` (everything after
`recv_multipart`): empty reply raises; the first frame is decoded
leniently; `"OK"`/`"STALE"` are returned as strings; `"ERR"` raises with
the optional message frame; anything else raises `Unexpected reply`. -/
def putDecode (rep : List (List Nat)) : Except KVError String :=
  match rep with
  | [] => .error .emptyReply
  | f0 :: rest =>
    let code := utf8DecodeIgnore f0
    if code = "OK" ∨ code = "STALE" then .ok code
    else if code = "ERR" then .error (.putErr (serverMsg rest))
    else .error (.unexpectedReply (f0 :: rest))

/-- `KVZClient.put`, with the server's reply an explicit argument: build
and "send" the request, then decode the reply.  When the timestamp fails
to pack, the error propagates regardless of the reply — no round trip
occurs. -/
def put (key : String) (ts : Int) (data : List Nat) (rep : List (List Nat)) :
    Except KVError String :=
  match putRequest key ts data with
  | .error e => .error e
  | .ok _ => putDecode rep

/-- The frames `KVZClient.get` passes to `send_multipart`:
`[b"GET", key.encode("utf-8")]`. -/
def getRequest (key : String) : List (List Nat) :=
  [[0x47, 0x45, 0x54], utf8Encode key]

/-- The reply-processing tail of `KVZClient.get`: empty reply raises;
`"MISS"` returns `None`; `"OK"` demands exactly 3 frames (else
`malformed OK reply`), unpacks the 8-byte timestamp and returns it with
the verbatim payload frame; `"ERR"` raises with the optional message;
anything else raises `Unexpected reply`. -/
def getDecode (rep : List (List Nat)) : Except KVError (Option (Nat × List Nat)) :=
  match rep with
  | [] => .error .emptyReply
  | f0 :: rest =>
    let code := utf8DecodeIgnore f0
    if code = "MISS" then .ok none
    else if code = "OK" then
      match rest with
      | [f1, f2] =>
        match structUnpackQ f1 with
        | some ts => .ok (some (ts, f2))
        | none => .error .packError
      | _ => .error .malformedOK
    else if code = "ERR" then .error (.getErr (serverMsg rest))
    else .error (.unexpectedReply (f0 :: rest))

/-- `KVZClient.get` with the reply explicit. -/
def get (key : String) (rep : List (List Nat)) :
    Except KVError (Option (Nat × List Nat)) :=
  match getRequest key with
  | _ => getDecode rep

/-- Server-side record table: key bytes mapped to (timestamp, payload),
most recent binding first. -/
abbrev Store := List (List Nat × Nat × List Nat)

/-- Lookup of the current record for a key. -/
def storeLookup (s : Store) (k : List Nat) : Option (Nat × List Nat) :=
  match s with
  | [] => none
  | (k0, v) :: rest => if k0 = k then some v else storeLookup rest k

/-- Modelled from the spec: the kvz server store, which is not part of
the Python source (only the client is).  §6 contract: a `PUT key ts
payload` request persists `(key, ts, payload)` and replies `OK` when no
record exists for the key or the existing record's timestamp is strictly
less than `ts`, otherwise leaves state unchanged and replies `STALE`; a
`GET key` request replies `OK` with the stored 8-byte big-endian
timestamp and verbatim payload when a record exists, else `MISS`; any
other input replies `ERR`.  Keys are kept as their UTF-8 bytes, which is
equivalent to decoded text since UTF-8 encoding is injective. -/
def storeHandle (s : Store) (req : List (List Nat)) : Store × List (List Nat) :=
  match req with
  | [tag, keyB, tsB, payload] =>
    if tag = [0x50, 0x55, 0x54] then
      match structUnpackQ tsB with
      | some t =>
        match storeLookup s keyB with
        | none => ((keyB, t, payload) :: s, [[0x4F, 0x4B]])
        | some (t0, _) =>
          if t0 < t then ((keyB, t, payload) :: s, [[0x4F, 0x4B]])
          else (s, [[0x53, 0x54, 0x41, 0x4C, 0x45]])
      | none => (s, [[0x45, 0x52, 0x52]])
    else (s, [[0x45, 0x52, 0x52]])
  | [tag, keyB] =>
    if tag = [0x47, 0x45, 0x54] then
      match storeLookup s keyB with
      | some (t, p) => (s, [[0x4F, 0x4B], packQNat t, p])
      | none => (s, [[0x4D, 0x49, 0x53, 0x53]])
    else (s, [[0x45, 0x52, 0x52]])
  | _ => (s, [[0x45, 0x52, 0x52]])

/-- Packing a timestamp in `[0, 2^64)` succeeds with the 8 big-endian
digit bytes. -/
theorem structPackQ_in_range (ts : Int) (h0 : 0 ≤ ts) (h1 : ts < 2 ^ 64) :
    structPackQ ts = some (packQNat ts.toNat) := by
  unfold structPackQ
  rw [if_pos ⟨h0, h1⟩]

/-- Unpacking the 8 big-endian digit bytes of a natural number below
`2^64` restores it. -/
theorem structUnpackQ_packQNat (t : Nat) (h : t < 2 ^ 64) :
    structUnpackQ (packQNat t) = some t := by
  simp only [packQNat, structUnpackQ]
  refine congrArg some ?_
  omega

/-- Claim C1: for every reply to `put` whose first frame decodes to `OK`, `put`
returns the `Accepted` outcome (the string `"OK"`), and for `STALE` it
returns the `Stale` outcome (`"STALE"`), both as normal return values;
for `ERR` it fails with the remote error carrying the server message,
and for any other tag it fails with the protocol error. -/
theorem put_reply_decode_cases (f0 : List Nat) (rest : List (List Nat)) :
    (utf8DecodeIgnore f0 = "OK" → putDecode (f0 :: rest) = .ok "OK") ∧
    (utf8DecodeIgnore f0 = "STALE" → putDecode (f0 :: rest) = .ok "STALE") ∧
    (utf8DecodeIgnore f0 = "ERR" →
      putDecode (f0 :: rest) = .error (.putErr (serverMsg rest))) ∧
    (utf8DecodeIgnore f0 ≠ "OK" → utf8DecodeIgnore f0 ≠ "STALE" →
      utf8DecodeIgnore f0 ≠ "ERR" →
      putDecode (f0 :: rest) = .error (.unexpectedReply (f0 :: rest))) := by
  refine ⟨fun h => by simp [putDecode, h], fun h => by simp [putDecode, h],
    fun h => by simp [putDecode, h], fun h1 h2 h3 => by simp [putDecode, h1, h2, h3]⟩

/-- Witness for C1 at concrete replies: `OK`, `STALE` (with a stray
extra frame), `ERR` with message `bad`, and the unknown tag `X`. -/
theorem put_reply_decode_cases_w :
    putDecode [[0x4F, 0x4B]] = .ok "OK" ∧
    putDecode [[0x53, 0x54, 0x41, 0x4C, 0x45], [0x21]] = .ok "STALE" ∧
    putDecode [[0x45, 0x52, 0x52], [0x62, 0x61, 0x64]] = .error (.putErr "bad") ∧
    putDecode [[0x58]] = .error (.unexpectedReply [[0x58]]) :=
  ⟨(put_reply_decode_cases [0x4F, 0x4B] []).1 (by decide),
    (put_reply_decode_cases [0x53, 0x54, 0x41, 0x4C, 0x45] [[0x21]]).2.1 (by decide),
    (put_reply_decode_cases [0x45, 0x52, 0x52] [[0x62, 0x61, 0x64]]).2.2.1 (by decide),
    (put_reply_decode_cases [0x58] []).2.2.2 (by decide) (by decide) (by decide)⟩

/-- Claim C2: for every reply to `get` whose first frame decodes to `MISS`,
`get` returns `none`; for a well-formed 3-frame `OK` reply (8-byte
second frame), it returns the unpacked big-endian timestamp paired with
the verbatim third frame; for `ERR` it fails with the remote error, and
for any unrecognized tag with the protocol error. -/
theorem get_reply_decode_cases (f0 f1 f2 : List Nat) (rest : List (List Nat)) :
    (utf8DecodeIgnore f0 = "MISS" → getDecode (f0 :: rest) = .ok none) ∧
    (utf8DecodeIgnore f0 = "OK" → f1.length = 8 →
      ∃ ts, structUnpackQ f1 = some ts ∧ getDecode [f0, f1, f2] = .ok (some (ts, f2))) ∧
    (utf8DecodeIgnore f0 = "ERR" →
      getDecode (f0 :: rest) = .error (.getErr (serverMsg rest))) ∧
    (utf8DecodeIgnore f0 ≠ "MISS" → utf8DecodeIgnore f0 ≠ "OK" →
      utf8DecodeIgnore f0 ≠ "ERR" →
      getDecode (f0 :: rest) = .error (.unexpectedReply (f0 :: rest))) := by
  refine ⟨fun h => by simp [getDecode, h], fun h1 h2 => ?_,
    fun h => by simp [getDecode, h], fun h1 h2 h3 => by simp [getDecode, h1, h2, h3]⟩
  rcases f1 with _ | ⟨b0, _ | ⟨b1, _ | ⟨b2, _ | ⟨b3, _ | ⟨b4, _ | ⟨b5, _ | ⟨b6, _ |
    ⟨b7, _ | ⟨b8, tl⟩⟩⟩⟩⟩⟩⟩⟩⟩ <;> simp at h2
  exact ⟨_, rfl, by simp [getDecode, h1, structUnpackQ]⟩

/-- Witness for C2 at concrete replies: `MISS`, a 3-frame `OK` for
timestamp 1000 and payload `hi`, `ERR` with message `no`, and an
unknown tag `Z`. -/
theorem get_reply_decode_cases_w :
    getDecode [[0x4D, 0x49, 0x53, 0x53]] = .ok none ∧
    (∃ ts, structUnpackQ [0, 0, 0, 0, 0, 0, 3, 232] = some ts ∧
      getDecode [[0x4F, 0x4B], [0, 0, 0, 0, 0, 0, 3, 232], [0x68, 0x69]] =
        .ok (some (ts, [0x68, 0x69]))) ∧
    getDecode [[0x45, 0x52, 0x52], [0x6E, 0x6F]] = .error (.getErr "no") ∧
    getDecode [[0x5A]] = .error (.unexpectedReply [[0x5A]]) :=
  ⟨(get_reply_decode_cases [0x4D, 0x49, 0x53, 0x53] [] [] []).1 (by decide),
    (get_reply_decode_cases [0x4F, 0x4B] [0, 0, 0, 0, 0, 0, 3, 232] [0x68, 0x69]
      []).2.1 (by decide) (by decide),
    (get_reply_decode_cases [0x45, 0x52, 0x52] [] [] [[0x6E, 0x6F]]).2.2.1 (by decide),
    (get_reply_decode_cases [0x5A] [] [] []).2.2.2 (by decide) (by decide) (by decide)⟩

/-- Claim C9: frame counts for the single-frame tags are not validated: a
`MISS` reply with any extra frames still yields `none` from `get`, and
`OK`/`STALE` replies with extra frames are still accepted by `put`. -/
theorem single_tag_extra_frames_accepted (rest : List (List Nat)) :
    getDecode ([0x4D, 0x49, 0x53, 0x53] :: rest) = .ok none ∧
    putDecode ([0x4F, 0x4B] :: rest) = .ok "OK" ∧
    putDecode ([0x53, 0x54, 0x41, 0x4C, 0x45] :: rest) = .ok "STALE" :=
  ⟨rfl, rfl, rfl⟩

/-- Claim C5: a `GET` reply whose first frame decodes to `OK` but whose frame
count is not 3 fails with the malformed-reply protocol error: not a
miss result, and distinct from a server-reported `ERR`. -/
theorem get_ok_wrong_frame_count (f0 : List Nat) (rest : List (List Nat))
    (hOK : utf8DecodeIgnore f0 = "OK") (hn : (f0 :: rest).length ≠ 3) :
    getDecode (f0 :: rest) = .error .malformedOK ∧
    getDecode (f0 :: rest) ≠ .ok none ∧
    (∀ m, (Except.error KVError.malformedOK :
      Except KVError (Option (Nat × List Nat))) ≠ .error (.getErr m)) := by
  have hr : rest.length ≠ 2 := by simpa using hn
  have hmain : getDecode (f0 :: rest) = .error .malformedOK := by
    rcases rest with _ | ⟨a, _ | ⟨b, _ | ⟨c, tl⟩⟩⟩
    · simp [getDecode, hOK]
    · simp [getDecode, hOK]
    · exact absurd rfl hr
    · simp [getDecode, hOK]
  exact ⟨hmain, by simp [hmain], by simp⟩

/-- Witness for C5: a 2-frame `OK` reply to `get` (payload frame
missing). -/
theorem get_ok_wrong_frame_count_w :
    getDecode [[0x4F, 0x4B], [0, 0, 0, 0, 0, 0, 3, 232]] = .error .malformedOK ∧
    getDecode [[0x4F, 0x4B], [0, 0, 0, 0, 0, 0, 3, 232]] ≠ .ok none ∧
    (∀ m, (Except.error KVError.malformedOK :
      Except KVError (Option (Nat × List Nat))) ≠ .error (.getErr m)) :=
  get_ok_wrong_frame_count [0x4F, 0x4B] [[0, 0, 0, 0, 0, 0, 3, 232]]
    (by decide) (by decide)

/-- Counterexample to C6 as stated: the second frame's bytes are not
carried as the message.  The `ERR` reply whose message frame is the
single invalid byte `0xFF` produces the same empty-message error as an
`ERR` reply with no message frame at all, so the frame's bytes are
lost, not carried. -/
theorem err_message_bytes_not_carried :
    putDecode [[0x45, 0x52, 0x52], [0xFF]] = .error (.putErr "") ∧
    putDecode [[0x45, 0x52, 0x52]] = .error (.putErr "") ∧
    ([0xFF] : List Nat) ≠ [] :=
  ⟨rfl, rfl, by decide⟩

/-- Claim C6 amended: an `ERR` reply with only the tag frame fails with the
remote error carrying an empty message (not a decode failure), and when
a second frame is present the message carried is that frame decoded as
UTF-8 with ill-formed bytes dropped (so the bytes are carried verbatim
only when they are valid UTF-8). -/
theorem err_reply_message (m : List Nat) (rest : List (List Nat)) :
    putDecode [[0x45, 0x52, 0x52]] = .error (.putErr "") ∧
    getDecode [[0x45, 0x52, 0x52]] = .error (.getErr "") ∧
    putDecode ([0x45, 0x52, 0x52] :: m :: rest) =
      .error (.putErr (utf8DecodeIgnore m)) ∧
    getDecode ([0x45, 0x52, 0x52] :: m :: rest) =
      .error (.getErr (utf8DecodeIgnore m)) :=
  ⟨rfl, rfl, rfl, rfl⟩

/-- Counterexample to C7 as stated: the source decodes status tags with
`errors="ignore"`, not `errors="replace"`: the lone invalid byte `0xFF`
decodes to the empty string rather than to the replacement character,
and the tag frame `OK` followed by the invalid byte `0xFF` decodes to
the valid tag `OK`, which `put` accepts. -/
theorem invalid_tag_bytes_dropped_not_replaced :
    utf8DecodeIgnore [0xFF] = "" ∧
    utf8DecodeIgnore [0xFF] ≠ "�" ∧
    utf8DecodeIgnore [0x4F, 0x4B, 0xFF] = "OK" ∧
    putDecode [[0x4F, 0x4B, 0xFF]] = .ok "OK" :=
  ⟨rfl, by decide, rfl, rfl⟩

/-- Claim C7 amended: the status tag is decoded as UTF-8 with ill-formed byte
sequences dropped rather than failing; decoding never raises, so a
nonempty reply never produces the transport error or a decode error
from `put`, and a tag frame containing invalid bytes can still decode
to a valid tag such as `OK`. -/
theorem status_tag_decode_total (f0 : List Nat) (rest : List (List Nat)) :
    putDecode (f0 :: rest) ≠ .error .emptyReply ∧
    putDecode (f0 :: rest) ≠ .error .packError ∧
    getDecode (f0 :: rest) ≠ .error .emptyReply ∧
    utf8DecodeIgnore [0x4F, 0x4B, 0xFF] = "OK" ∧
    utf8DecodeIgnore [0xFF] = "" := by
  refine ⟨?_, ?_, ?_, rfl, rfl⟩
  · simp only [putDecode]
    split
    · simp
    · split <;> simp
  · simp only [putDecode]
    split
    · simp
    · split <;> simp
  · simp only [getDecode]
    split
    · simp
    · split
      · split
        · split <;> simp
        · simp
      · split <;> simp

/-- Witness for C7 amended, at the reply whose tag frame is the single
invalid byte `0xFF` (which decodes to the empty string, an unknown
tag). -/
theorem status_tag_decode_total_w :
    putDecode [[0xFF]] ≠ .error .emptyReply ∧
    putDecode [[0xFF]] ≠ .error .packError ∧
    getDecode [[0xFF]] ≠ .error .emptyReply ∧
    utf8DecodeIgnore [0x4F, 0x4B, 0xFF] = "OK" ∧
    utf8DecodeIgnore [0xFF] = "" :=
  status_tag_decode_total [0xFF] []

/-- Two strings whose first characters differ are different. -/
theorem string_ne_of_head (s t : String) (c d : Char)
    (hs : s.data.head? = some c) (ht : t.data.head? = some d) (h : c ≠ d) :
    s ≠ t := by
  intro he
  apply h
  rw [he, ht] at hs
  injection hs with hv
  exact hv.symm

/-- Claim C8: a reply with zero frames makes both `put` and `get` fail with
the transport-level `empty reply` error, and the `RuntimeError` message
strings of the five failure sites keep transport, remote and protocol
failures distinguishable, so together with the normal `Accepted`,
`Stale` and miss return values callers can tell all outcomes apart. -/
theorem empty_reply_transport_error (m : String) (r : List (List Nat)) :
    putDecode [] = .error .emptyReply ∧
    getDecode [] = .error .emptyReply ∧
    KVError.message .emptyReply ≠ KVError.message (.putErr m) ∧
    KVError.message .emptyReply ≠ KVError.message (.getErr m) ∧
    KVError.message .emptyReply ≠ KVError.message .malformedOK ∧
    KVError.message .emptyReply ≠ KVError.message (.unexpectedReply r) ∧
    KVError.message (.putErr m) ≠ KVError.message .malformedOK ∧
    KVError.message (.putErr m) ≠ KVError.message (.unexpectedReply r) ∧
    KVError.message (.getErr m) ≠ KVError.message .malformedOK ∧
    KVError.message (.getErr m) ≠ KVError.message (.unexpectedReply r) :=
  ⟨rfl, rfl,
    string_ne_of_head _ _ 'e' 'P' rfl rfl (by decide),
    string_ne_of_head _ _ 'e' 'G' rfl rfl (by decide),
    string_ne_of_head _ _ 'e' 'm' rfl rfl (by decide),
    string_ne_of_head _ _ 'e' 'U' rfl rfl (by decide),
    string_ne_of_head _ _ 'P' 'm' rfl rfl (by decide),
    string_ne_of_head _ _ 'P' 'U' rfl rfl (by decide),
    string_ne_of_head _ _ 'G' 'm' rfl rfl (by decide),
    string_ne_of_head _ _ 'G' 'U' rfl rfl (by decide)⟩

/-- Witness for C8 at a concrete remote message and reply. -/
theorem empty_reply_transport_error_w :
    putDecode [] = .error .emptyReply ∧
    getDecode [] = .error .emptyReply ∧
    KVError.message .emptyReply ≠ KVError.message (.putErr "x") ∧
    KVError.message .emptyReply ≠ KVError.message (.getErr "x") ∧
    KVError.message .emptyReply ≠ KVError.message .malformedOK ∧
    KVError.message .emptyReply ≠ KVError.message (.unexpectedReply [[0]]) ∧
    KVError.message (.putErr "x") ≠ KVError.message .malformedOK ∧
    KVError.message (.putErr "x") ≠ KVError.message (.unexpectedReply [[0]]) ∧
    KVError.message (.getErr "x") ≠ KVError.message .malformedOK ∧
    KVError.message (.getErr "x") ≠ KVError.message (.unexpectedReply [[0]]) :=
  empty_reply_transport_error "x" [[0]]

/-- Claim C3: for every key, in-range timestamp and payload, `put` sends
exactly the four frames `[PUT-tag, UTF-8 key, 8-byte big-endian
timestamp, verbatim payload]` (the third frame characterized as the
8-byte sequence that unpacks back to the timestamp), and `get` sends
exactly the two frames `[GET-tag, UTF-8 key]`. -/
theorem request_frames (key : String) (ts : Int) (data : List Nat)
    (h0 : 0 ≤ ts) (h1 : ts < 2 ^ 64) :
    putRequest key ts data =
      .ok [[0x50, 0x55, 0x54], utf8Encode key, packQNat ts.toNat, data] ∧
    (packQNat ts.toNat).length = 8 ∧
    structUnpackQ (packQNat ts.toNat) = some ts.toNat ∧
    getRequest key = [[0x47, 0x45, 0x54], utf8Encode key] := by
  refine ⟨?_, rfl, structUnpackQ_packQNat ts.toNat (by omega), rfl⟩
  unfold putRequest
  rw [structPackQ_in_range ts h0 h1]

/-- Witness for C3 at the spec's concrete scenario: key `greeting`,
timestamp 1000, payload `hello`. -/
theorem request_frames_w :
    putRequest "greeting" 1000 [0x68, 0x65, 0x6C, 0x6C, 0x6F] =
      .ok [[0x50, 0x55, 0x54], utf8Encode "greeting", packQNat (1000 : Int).toNat,
        [0x68, 0x65, 0x6C, 0x6C, 0x6F]] ∧
    (packQNat (1000 : Int).toNat).length = 8 ∧
    structUnpackQ (packQNat (1000 : Int).toNat) = some (1000 : Int).toNat ∧
    getRequest "greeting" = [[0x47, 0x45, 0x54], utf8Encode "greeting"] :=
  request_frames "greeting" 1000 [0x68, 0x65, 0x6C, 0x6C, 0x6F]
    (by norm_num) (by norm_num)

/-- Claim C10: `put` is defined only for timestamps in `[0, 2^64)`.  Outside
the range, `struct.pack(">Q", ts)` fails, so `put` fails with the pack
error before any frames are produced and regardless of any reply — no
round trip occurs.  In range, packing succeeds and unpacking the 8
produced bytes yields the timestamp back. -/
theorem put_ts_range (ts : Int) :
    ((ts < 0 ∨ 2 ^ 64 ≤ ts) →
      ∀ key data rep, putRequest key ts data = .error .packError ∧
        put key ts data rep = .error .packError) ∧
    (0 ≤ ts → ts < 2 ^ 64 →
      structPackQ ts = some (packQNat ts.toNat) ∧
      structUnpackQ (packQNat ts.toNat) = some ts.toNat) := by
  constructor
  · intro h key data rep
    have hno : ¬ (0 ≤ ts ∧ ts < 2 ^ 64) := by
      rcases h with h | h
      · exact fun hc => absurd hc.1 (by omega)
      · exact fun hc => absurd hc.2 (by omega)
    have hpack : structPackQ ts = none := by
      unfold structPackQ
      rw [if_neg hno]
    have hreq : putRequest key ts data = .error .packError := by
      unfold putRequest
      rw [hpack]
    refine ⟨hreq, ?_⟩
    unfold put
    rw [hreq]
  · intro h0 h1
    exact ⟨structPackQ_in_range ts h0 h1,
      structUnpackQ_packQNat ts.toNat (by omega)⟩

/-- Witness for C10 at the out-of-range timestamps `-1` and `2^64`, and
the in-range timestamp 7. -/
theorem put_ts_range_w :
    putRequest "k" (-1) [] = .error .packError ∧
    put "k" (-1) [] [[0x4F, 0x4B]] = .error .packError ∧
    put "k" (2 ^ 64) [] [[0x4F, 0x4B]] = .error .packError ∧
    structPackQ 7 = some (packQNat (7 : Int).toNat) ∧
    structUnpackQ (packQNat (7 : Int).toNat) = some (7 : Int).toNat :=
  ⟨((put_ts_range (-1)).1 (Or.inl (by norm_num)) "k" [] [[0x4F, 0x4B]]).1,
    ((put_ts_range (-1)).1 (Or.inl (by norm_num)) "k" [] [[0x4F, 0x4B]]).2,
    ((put_ts_range (2 ^ 64)).1 (Or.inr (by norm_num)) "k" [] [[0x4F, 0x4B]]).2,
    ((put_ts_range 7).2 (by norm_num) (by norm_num)).1,
    ((put_ts_range 7).2 (by norm_num) (by norm_num)).2⟩

/-- Claim C4: against a store conforming to the §6 contract, starting from no
record for the key, a `put` of any key, timestamp in `[0, 2^64)` and
payload (the empty payload and arbitrary byte values included) is
accepted, and a following `get` of the same key returns exactly that
timestamp and a payload byte-identical to the one stored. -/
theorem put_get_roundtrip (K : String) (T : Int) (P : List Nat)
    (hT0 : 0 ≤ T) (hT1 : T < 2 ^ 64) :
    ∃ req, putRequest K T P = .ok req ∧
      putDecode (storeHandle [] req).2 = .ok "OK" ∧
      getDecode (storeHandle (storeHandle [] req).1 (getRequest K)).2 =
        .ok (some (T.toNat, P)) := by
  have hunpack := structUnpackQ_packQNat T.toNat (by omega)
  have hreq : putRequest K T P =
      .ok [[0x50, 0x55, 0x54], utf8Encode K, packQNat T.toNat, P] := by
    unfold putRequest
    rw [structPackQ_in_range T hT0 hT1]
  have hs1 : storeHandle [] [[0x50, 0x55, 0x54], utf8Encode K, packQNat T.toNat, P] =
      ([(utf8Encode K, T.toNat, P)], [[0x4F, 0x4B]]) := by
    simp [storeHandle, storeLookup, hunpack]
  have hs2 : storeHandle [(utf8Encode K, T.toNat, P)] (getRequest K) =
      ([(utf8Encode K, T.toNat, P)], [[0x4F, 0x4B], packQNat T.toNat, P]) := by
    simp [storeHandle, getRequest, storeLookup]
  refine ⟨_, hreq, ?_, ?_⟩
  · simp only [hs1]
    rfl
  · simp only [hs1, hs2]
    have hcode : utf8DecodeIgnore [0x4F, 0x4B] = "OK" := rfl
    simp [getDecode, hcode, hunpack]

/-- Witness for C4 at the spec's concrete scenario: key `greeting`,
timestamp 1000, payload `hi`. -/
theorem put_get_roundtrip_w :
    ∃ req, putRequest "greeting" 1000 [0x68, 0x69] = .ok req ∧
      putDecode (storeHandle [] req).2 = .ok "OK" ∧
      getDecode (storeHandle (storeHandle [] req).1 (getRequest "greeting")).2 =
        .ok (some ((1000 : Int).toNat, [0x68, 0x69])) :=
  put_get_roundtrip "greeting" 1000 [0x68, 0x69] (by norm_num) (by norm_num)
